import Mathlib

/-!
Verification development for the tutoring-assistance backend
(`backend/app/services`): the LLM orchestration layer (JSON extraction,
bounded JSON-repair retry, model registry) and the adaptive policy engine
(policy compiler, feedback state reducer).

Conventions of the shallow embedding:
* Python `str` values are modelled as `List Char`; `bytes` as `List Nat`.
* Python `float` state (mastery, confidence, temperatures) is modelled with
  exact rationals `ℚ`; the decimal constants 0.2, 0.05, 0.1, 0.3, 0.7 become
  1/5, 1/20, 1/10, 3/10, 7/10.
* UUIDs are modelled as `Nat`; timestamps are not modelled.
* The SQLAlchemy session is modelled as a list of rows; `db.commit` /
  `db.refresh` are identity on this model, a row update rewrites the row
  that matches the unique key (child_profile_id, topic_key).
* Exceptions become `Except`; async calls to the external provider are
  modelled by a script of the texts the provider would return.
-/

namespace HWC

/-- Character list of a string literal (Python `str` values). -/
def str (s : String) : List Char := s.data

/-- Whitespace characters stripped by Python `str.strip()` / matched by `\s`
(ASCII range, which covers all texts in this development). -/
def isSpaceChar (c : Char) : Bool :=
  c == ' ' || c == '\t' || c == '\n' || c == '\r' || c == '\x0b' || c == '\x0c'

/-- Python `s.strip()`: remove leading and trailing whitespace. -/
def pyStrip (l : List Char) : List Char :=
  ((l.dropWhile isSpaceChar).reverse.dropWhile isSpaceChar).reverse

/-- `startsWithSeq pat l` is true when `pat` is a prefix of `l`. -/
def startsWithSeq : List Char → List Char → Bool
  | [], _ => true
  | _ :: _, [] => false
  | p :: ps, c :: cs => c == p && startsWithSeq ps cs

/-- Does `pat` occur as a contiguous substring of `l`? -/
def hasSub : List Char → List Char → Bool
  | [], pat => startsWithSeq pat []
  | c :: t, pat => startsWithSeq pat (c :: t) || hasSub t pat

/-- Python `s.split(".")` on character lists. -/
def splitOnDot : List Char → List (List Char)
  | [] => [[]]
  | c :: rest =>
    if c = '.' then [] :: splitOnDot rest
    else
      match splitOnDot rest with
      | [] => [[c]]
      | p :: ps => (c :: p) :: ps

/-- Index of the first occurrence of `a` in a list (Python `list.index`;
returns the length when absent, which the source never hits). -/
def list_index {α : Type} [DecidableEq α] : List α → α → Nat
  | [], _ => 0
  | x :: xs, a => if x = a then 0 else list_index xs a + 1

/-! ## State model (`app/models/topic_state.py`, `app/models/feedback.py`) -/

/-- `AbstractionLevel` enum. -/
inductive AbstractionLevel where
  | MORE_CONCRETE
  | BALANCED
  | MORE_ABSTRACT
deriving DecidableEq, Repr

/-- `HintDepth` enum. -/
inductive HintDepth where
  | LIGHT_HINTS
  | MODERATE
  | STEP_BY_STEP
deriving DecidableEq, Repr

/-- `FeedbackEventType` enum. -/
inductive FeedbackEventType where
  | TOO_SIMPLE
  | JUST_RIGHT
  | TOO_ADVANCED
  | UNDERSTOOD
  | STILL_CONFUSED
deriving DecidableEq, Repr

/-- Row of `child_topic_state` (fields the core reads/writes; `id` and
`updated_at` are not modelled). -/
structure ChildTopicState where
  child_profile_id : Nat
  subject : List Char
  topic_key : List Char
  mastery : ℚ
  confidence : ℚ
  preferred_abstraction : AbstractionLevel
  preferred_hint_depth : HintDepth
deriving DecidableEq, Repr

/-- Row of `feedback_events` (fields the reducer reads; `id`, `question_id`
and `created_at` are not modelled). -/
structure FeedbackEvent where
  child_profile_id : Nat
  topic_key : List Char
  event_type : FeedbackEventType
deriving DecidableEq, Repr

/-! ## State Reducer (`app/services/state_reducer.py`) -/

/-- EMA (Exponential Moving Average) factor for smooth updates (0.2). -/
def EMA_FACTOR : ℚ := 1/5

/-- Mastery state change amount (0.05). -/
def MASTERY_CHANGE : ℚ := 1/20

/-- Confidence state change amount (0.1). -/
def CONFIDENCE_CHANGE : ℚ := 1/10

/-- Python builtin `min` on two numbers. -/
def pymin (a b : ℚ) : ℚ := if a ≤ b then a else b

/-- Python builtin `max` on two numbers. -/
def pymax (a b : ℚ) : ℚ := if b ≤ a then a else b

/-- `clamp(value, 0.0, 1.0)` = `max(min_val, min(max_val, value))`: the
source always calls it with the default bounds `min_val=0.0`, `max_val=1.0`. -/
def clamp (value : ℚ) : ℚ :=
  pymax 0 (pymin 1 value)

/-- `shift_abstraction(current, direction)`: move one rung toward
`"concrete"` or `"abstract"`, no-op at the boundary. -/
def shift_abstraction (current : AbstractionLevel) (direction : List Char) :
    AbstractionLevel :=
  let levels := [AbstractionLevel.MORE_CONCRETE, AbstractionLevel.BALANCED,
    AbstractionLevel.MORE_ABSTRACT]
  let current_idx := list_index levels current
  if direction = str "concrete" ∧ 0 < current_idx then
    (levels.get? (current_idx - 1)).getD current
  else if direction = str "abstract" ∧ current_idx < levels.length - 1 then
    (levels.get? (current_idx + 1)).getD current
  else current

/-- `shift_hint_depth(current, direction)`: move one rung toward `"more"`
or `"less"` scaffolding, no-op at the boundary. -/
def shift_hint_depth (current : HintDepth) (direction : List Char) : HintDepth :=
  let levels := [HintDepth.LIGHT_HINTS, HintDepth.MODERATE, HintDepth.STEP_BY_STEP]
  let current_idx := list_index levels current
  if direction = str "more" ∧ current_idx < levels.length - 1 then
    (levels.get? (current_idx + 1)).getD current
  else if direction = str "less" ∧ 0 < current_idx then
    (levels.get? (current_idx - 1)).getD current
  else current

/-- Row predicate of the `select ... where` in `get_or_create_topic_state`. -/
def topicMatch (child_profile_id : Nat) (topic_key : List Char)
    (t : ChildTopicState) : Bool :=
  t.child_profile_id == child_profile_id && t.topic_key == topic_key

/-- `get_or_create_topic_state`: look the row up by (profile, topic_key);
when absent, insert a fresh row with the neutral defaults
mastery=0.5, confidence=0.5, balanced, moderate.  Returns the updated
session contents together with the row. -/
def get_or_create_topic_state (db : List ChildTopicState)
    (child_profile_id : Nat) (subject topic_key : List Char) :
    List ChildTopicState × ChildTopicState :=
  match db.find? (topicMatch child_profile_id topic_key) with
  | some topic_state => (db, topic_state)
  | none =>
    let topic_state : ChildTopicState :=
      { child_profile_id := child_profile_id
        subject := subject
        topic_key := topic_key
        mastery := 1/2
        confidence := 1/2
        preferred_abstraction := AbstractionLevel.BALANCED
        preferred_hint_depth := HintDepth.MODERATE }
    (db ++ [topic_state], topic_state)

/-- Update rules of `process_feedback` (the if/elif chain on
`feedback.event_type`, lines 123–176), applied to the fetched row. -/
def apply_event (t : ChildTopicState) (event_type : FeedbackEventType) :
    ChildTopicState :=
  match event_type with
  | .TOO_ADVANCED =>
    { t with
      preferred_hint_depth := shift_hint_depth t.preferred_hint_depth (str "more")
      preferred_abstraction :=
        shift_abstraction t.preferred_abstraction (str "concrete")
      mastery :=
        clamp (t.mastery * (1 - EMA_FACTOR) + (t.mastery - MASTERY_CHANGE) * EMA_FACTOR) }
  | .TOO_SIMPLE =>
    { t with
      preferred_hint_depth := shift_hint_depth t.preferred_hint_depth (str "less")
      preferred_abstraction :=
        shift_abstraction t.preferred_abstraction (str "abstract")
      mastery :=
        clamp (t.mastery * (1 - EMA_FACTOR) + (t.mastery + MASTERY_CHANGE) * EMA_FACTOR) }
  | .JUST_RIGHT =>
    { t with confidence := clamp (t.confidence + CONFIDENCE_CHANGE) }
  | .UNDERSTOOD =>
    { t with
      mastery := clamp (t.mastery * (1 - EMA_FACTOR) + 1 * EMA_FACTOR)
      confidence := clamp (t.confidence + CONFIDENCE_CHANGE) }
  | .STILL_CONFUSED =>
    let confidence := clamp (t.confidence - CONFIDENCE_CHANGE)
    { t with
      confidence := confidence
      preferred_hint_depth :=
        if confidence < 3/10 then
          shift_hint_depth t.preferred_hint_depth (str "more")
        else t.preferred_hint_depth }

/-- `process_feedback`: fetch (or lazily create) the topic state — the
subject is derived as `feedback.topic_key.split(".")[0]` — apply the update
rules for the event type, and persist the mutated row.  Returns the session
contents after commit together with the updated row. -/
def process_feedback (db : List ChildTopicState) (feedback : FeedbackEvent) :
    List ChildTopicState × ChildTopicState :=
  let fetched := get_or_create_topic_state db feedback.child_profile_id
    ((splitOnDot feedback.topic_key).headD []) feedback.topic_key
  let topic_state := apply_event fetched.2 feedback.event_type
  (fetched.1.map
    (fun s =>
      if topicMatch feedback.child_profile_id feedback.topic_key s then topic_state
      else s),
    topic_state)

/-- Fold of `process_feedback` over a sequence of feedback events. -/
def process_feedback_list (db : List ChildTopicState)
    (events : List FeedbackEvent) : List ChildTopicState :=
  events.foldl (fun d fb => (process_feedback d fb).1) db

/-- Mastery and confidence of a row lie in `[0,1]`. -/
def boundedState (t : ChildTopicState) : Prop :=
  0 ≤ t.mastery ∧ t.mastery ≤ 1 ∧ 0 ≤ t.confidence ∧ t.confidence ≤ 1

/-- Every row of the session is bounded. -/
def boundedDb (db : List ChildTopicState) : Prop :=
  ∀ t ∈ db, boundedState t

/-! ## JSON extraction (`LLMOrchestrator._extract_json`)

The code-block pattern is `r"```(?:json)?\s*([\s\S]*?)```"`: the lazy capture
makes each match close at the next fence token, so the captures of
`re.findall` are exactly the parts between the (2k+1)-th and (2k+2)-th
non-overlapping occurrence of three backticks.  The raw-object pattern is
`r"\{[\s\S]*\}"`: the greedy `[\s\S]*` makes the single possible match run
from the first brace to the last closing brace of the whole text. -/

/-- Split on non-overlapping occurrences of three backticks, leftmost first
(the segmentation `re.findall` induces for the fenced-block pattern). -/
def splitTicks : List Char → List (List Char)
  | '`' :: '`' :: '`' :: rest => [] :: splitTicks rest
  | [] => [[]]
  | c :: rest =>
    match splitTicks rest with
    | [] => [[c]]
    | p :: ps => (c :: p) :: ps

/-- Capture of the first fenced-block match (`matches[0]` of the code-block
pattern): the text between the first and second fence token, with the
optional `json` tag (`(?:json)?`) and the leading whitespace (`\s*`)
removed.  `none` when fewer than two fence tokens exist, i.e. `matches` is
empty. -/
def firstFenced (content : List Char) : Option (List Char) :=
  match splitTicks content with
  | _ :: block :: _ :: _ =>
    some ((if startsWithSeq (str "json") block then block.drop 4 else block).dropWhile
      isSpaceChar)
  | _ => none

/-- The single match of the greedy raw-object pattern `\{[\s\S]*\}`: from
the first `\x7b` to the last `\x7d`, `none` when no `\x7b` is followed by a
later `\x7d`. -/
def brace_match (content : List Char) : Option (List Char) :=
  let rest := content.dropWhile (fun c => c != '{')
  let rtail := rest.reverse.dropWhile (fun c => c != '}')
  if rtail.isEmpty then none else some rtail.reverse

/-- `_extract_json(content)`: first fenced block content (stripped) if any
fenced block exists, else the greedy brace match, else the stripped text.
(The source's `max(matches, key=len)` ranges over the singleton list the
greedy pattern produces.) -/
def extract_json (content : List Char) : List Char :=
  match firstFenced content with
  | some capture => pyStrip capture
  | none =>
    match brace_match content with
    | some m => m
    | none => pyStrip content

/-! ## Model registry (`app/services/llm/registry.py`) -/

/-- Provider families the registry can instantiate (`_create_provider`). -/
inductive ProviderKind where
  | openai_responses
  | openai_chat
deriving DecidableEq, Repr

/-- Value type of a `MODEL_REGISTRY` entry. -/
structure ModelInfo where
  display_name : List Char
  provider : List Char
  api_model : List Char
  supports_vision : Bool
  tier : List Char
  description : List Char
deriving DecidableEq, Repr

/-- `MODEL_REGISTRY`: insertion-ordered mapping (a Python 3.7+ dict) from
public model id to metadata, modelled as an association list in
registration order. -/
def MODEL_REGISTRY : List (List Char × ModelInfo) :=
  [(str "gpt-5.2",
    { display_name := str "GPT-5.2 (Premium)"
      provider := str "openai_responses"
      api_model := str "gpt-5.2"
      supports_vision := true
      tier := str "premium"
      description := str "Most capable model. Best reasoning but slowest (~30s). Use for complex or multi-step problems." }),
   (str "gpt-5-mini",
    { display_name := str "GPT-5 Mini"
      provider := str "openai_responses"
      api_model := str "gpt-5-mini"
      supports_vision := true
      tier := str "standard"
      description := str "Good balance of quality and speed (~15-20s). Suitable for most homework questions." }),
   (str "gpt-4o",
    { display_name := str "GPT-4o"
      provider := str "openai_chat"
      api_model := str "gpt-4o"
      supports_vision := true
      tier := str "standard"
      description := str "Fast and reliable (~15-25s). Strong vision support. Recommended default." }),
   (str "gpt-4o-mini",
    { display_name := str "GPT-4o Mini (Budget)"
      provider := str "openai_chat"
      api_model := str "gpt-4o-mini"
      supports_vision := true
      tier := str "budget"
      description := str "Fastest and cheapest (~5-10s). Good for simple questions. May struggle with complex problems." })]

/-- `DEFAULT_MODEL_ID`: model used when nothing else is specified. -/
def DEFAULT_MODEL_ID : List Char := str "gpt-4o"

/-- Ordered association-list lookup (Python `dict` membership / indexing;
the registry never holds duplicate keys). -/
def regLookup : List (List Char × ModelInfo) → List Char → Option ModelInfo
  | [], _ => none
  | (k, v) :: rest, model_id =>
    if k = model_id then some v else regLookup rest model_id

/-- Python `", ".join(keys)`. -/
def joinCommaKeys : List (List Char) → List Char
  | [] => []
  | [k] => k
  | k :: rest => k ++ str ", " ++ joinCommaKeys rest

/-- `_create_provider(provider_type)`: map the provider type string to the
provider family (the lazily-created singleton adapters carry no state the
core reads, so the family stands for the instance). -/
def _create_provider (provider_type : List Char) : Except (List Char) ProviderKind :=
  if provider_type = str "openai_responses" then .ok ProviderKind.openai_responses
  else if provider_type = str "openai_chat" then .ok ProviderKind.openai_chat
  else .error (str "Unknown provider type: " ++ provider_type)

/-- `get_provider(model_id)`: resolve the public id to (provider instance,
backend api model string); raises `ValueError` (modelled as `.error`) when
the id is not registered. -/
def get_provider (model_id : List Char) :
    Except (List Char) (ProviderKind × List Char) :=
  match regLookup MODEL_REGISTRY model_id with
  | none =>
    .error (str "Unknown model: " ++ model_id ++ str ". Available models: " ++
      joinCommaKeys (MODEL_REGISTRY.map (fun p => p.1)))
  | some model_info =>
    match _create_provider model_info.provider with
    | .error e => .error e
    | .ok p => .ok (p, model_info.api_model)

/-- Shape of one entry of the `list_models()` response. -/
structure ModelListing where
  id : List Char
  display_name : List Char
  tier : List Char
  supports_vision : Bool
  description : List Char
deriving DecidableEq, Repr

/-- `list_models()`: the registry entries, in registration order, projected
to the frontend fields. -/
def list_models : List ModelListing :=
  MODEL_REGISTRY.map (fun p =>
    { id := p.1
      display_name := p.2.display_name
      tier := p.2.tier
      supports_vision := p.2.supports_vision
      description := p.2.description })

/-! ## Policy compiler (`app/services/policy_compiler.py`) -/

/-- Row of `user_global_state` (fields the compiler reads). -/
structure UserGlobalState where
  child_profile_id : Nat
  grade_alignment : List Char
  curriculum : List Char
  language : List Char
  default_explanation_style : List Char
  no_direct_answer : Bool
deriving DecidableEq, Repr

/-- `get_grade_description(grade)`: `grade_map.get(grade, grade)`. -/
def get_grade_description (grade : List Char) : List Char :=
  if grade = str "year_1" then str "Year 1 (ages 5-6)"
  else if grade = str "year_2" then str "Year 2 (ages 6-7)"
  else if grade = str "year_3" then str "Year 3 (ages 7-8)"
  else if grade = str "year_4" then str "Year 4 (ages 8-9)"
  else if grade = str "year_5" then str "Year 5 (ages 9-10)"
  else if grade = str "year_6" then str "Year 6 (ages 10-11)"
  else if grade = str "year_7" then str "Year 7 (ages 11-12)"
  else if grade = str "year_8" then str "Year 8 (ages 12-13)"
  else grade

/-- `get_abstraction_instruction(level)`. -/
def get_abstraction_instruction (level : AbstractionLevel) : List Char :=
  match level with
  | .MORE_CONCRETE =>
    str "Use concrete examples, real-world objects, and visual explanations. Avoid abstract terminology."
  | .MORE_ABSTRACT =>
    str "You may use mathematical notation and abstract concepts when appropriate."
  | .BALANCED => str "Balance concrete examples with conceptual explanations."

/-- `get_explanation_depth_instruction(depth)`. -/
def get_explanation_depth_instruction (depth : HintDepth) : List Char :=
  match depth with
  | .LIGHT_HINTS =>
    str "Keep explanations concise. Focus on key steps without extensive detail."
  | .STEP_BY_STEP =>
    str "Provide detailed explanations with thorough breakdowns of each step."
  | .MODERATE => str "Provide clear explanations with moderate detail."

/-- Tone framing added when `mastery < 0.3` (extra-patient). -/
def MASTERY_LOW_INSTRUCTION : List Char :=
  str "This child finds this topic challenging. Be extra patient and break concepts into smaller pieces."

/-- Tone framing added when `mastery > 0.7` (faster-paced). -/
def MASTERY_HIGH_INSTRUCTION : List Char :=
  str "This child is strong in this topic. You can move more quickly through basic concepts."

/-- Mastery-based tone adjustment of `compile_policy` (the
`if mastery < 0.3 / elif mastery > 0.7 / else ""` chain). -/
def mastery_instruction_of (mastery : ℚ) : List Char :=
  if mastery < 3/10 then MASTERY_LOW_INSTRUCTION
  else if mastery > 7/10 then MASTERY_HIGH_INSTRUCTION
  else []

/-- Language directive of `compile_policy` (the `if lang == "zh_en" / elif
lang == "zh" / else` chain). -/
def language_instruction_of (lang : List Char) : List Char :=
  if lang = str "zh_en" then
    str "Respond in both English and Chinese (中文). For mathematical terms, provide both the English term and Chinese translation."
  else if lang = str "zh" then str "Respond entirely in Chinese (中文)."
  else str "Respond in English."

/-- Mastery the compiler works with: from the topic state when present,
else the 0.5 default for new topics. -/
def mastery_of : Option ChildTopicState → ℚ
  | some t => t.mastery
  | none => 1/2

/-- Abstraction preference the compiler works with (default balanced). -/
def abstraction_of : Option ChildTopicState → AbstractionLevel
  | some t => t.preferred_abstraction
  | none => AbstractionLevel.BALANCED

/-- Hint depth the compiler works with (default moderate). -/
def hint_depth_of : Option ChildTopicState → HintDepth
  | some t => t.preferred_hint_depth
  | none => HintDepth.MODERATE

/-- Middle section of the policy template, between the mastery instruction
and the closing sentence (literal text of the f-string; `{{`/`}}` render as
braces). -/
def POLICY_TAIL_SECTION : List Char :=
  str "\n\nMath Formatting:\nIMPORTANT: Wrap ALL mathematical expressions in dollar-sign delimiters for LaTeX rendering.\n- Inline math: $expression$ (e.g., $\\frac\x7b3\x7d\x7b4\x7d$, $x^2 + 5$, $\\sqrt\x7b18\x7d$, $3 \\times 4 = 12$)\n- Use LaTeX notation: \\frac\x7ba\x7d\x7bb\x7d for fractions, ^\x7bn\x7d for exponents, \\sqrt\x7bx\x7d for roots, \\times for multiplication, \\div for division, \\pi for pi, etc.\n- Example: Instead of \"3/4 + 1/2\", write \"$\\frac\x7b3\x7d\x7b4\x7d + \\frac\x7b1\x7d\x7b2\x7d$\"\n- Example: Instead of \"area = length × width\", write \"area $= \\text\x7blength\x7d \\times \\text\x7bwidth\x7d$\"\n- Apply this to ALL text fields: key_idea, explanation, tip, common_mistakes\n\nOutput Format:\nYou must respond with valid JSON only. The JSON must contain:\n- \"subject\": The subject area (e.g., \"math\", \"english\")\n- \"topic\": A topic key in format \"subject.category.specific\" (e.g., \"math.geometry.area_perimeter\")\n- \"parent_context\": An object with:\n  - \"what_it_tests\": Array of skills being tested\n  - \"key_idea\": The main concept parents should understand\n- \"solution_steps\": Array of solution steps, each with:\n  - \"step\": Step number (1, 2, 3, etc.)\n  - \"title\": Short title for the step (e.g., \"Understand the shape\")\n  - \"explanation\": Detailed explanation of this step\n- \"teaching_tips\": Array of tips for parents on how to explain to their child, each with:\n  - \"tip\": The teaching tip text\n- \"common_mistakes\": Array of common mistakes to watch for\n\nGEOMETRY DIAGRAMS:\nFor geometry questions, you MUST also include a \"diagram\" field with an interactive diagram spec:\n- \"diagram\": An object with:\n  - \"viewBox\": \x7b\"width\": 400, \"height\": 300, \"padding\": 20\x7d\n  - \"elements\": Array of diagram elements, each with:\n    - \"id\": Unique identifier (e.g., \"triangle1\", \"line_height\")\n    - \"type\": One of \"polygon\", \"circle\", \"arc\", \"line\", \"point\", \"angle\", \"label\"\n    - \"highlightSteps\": Array of step numbers when this element should be highlighted\n    - For polygon/line: \"points\" array of [x, y] coordinates\n    - For circle: \"center\" [x, y] and \"radius\" number\n    - For arc (semicircle): \"center\", \"radius\", \"startAngle\", \"endAngle\" (degrees, 0=right, 90=down)\n    - For point: \"position\" [x, y]\n    - For angle: \"vertex\" [x, y] and \"rays\" array of two [x, y] endpoints\n    - Optional: \"style\" (\"solid\" or \"dashed\"), \"label\" \x7b\"text\": \"7 cm\", \"position\": \"bottom\"\x7d\n    - Optional: \"labels\" array for multiple labels on one element\n\nMake the diagram coordinates fit within the viewBox. Use highlightSteps to link elements to solution steps.\nExample: A triangle highlighted in step 1 would have \"highlightSteps\": [1].\n\n"

/-- Closing sentence of the policy template. -/
def POLICY_CLOSING : List Char :=
  str "Write the solution as you would explain it to the parent, clearly and step-by-step."

/-- Opening words of the policy template. -/
def POLICY_INTRO : List Char :=
  str "You are a homework tutor helping a parent guide their "

/-- Template text between the grade description and the curriculum. -/
def POLICY_CURRICULUM_LABEL : List Char :=
  str " child through homework.\nCurriculum: "

/-- Core-rules section of the template, between the language directive and
the abstraction instruction. -/
def POLICY_CORE_RULES : List Char :=
  str "\n\nCore Rules:\n1. You are helping the PARENT understand the question so they can guide their child.\n2. Provide a complete step-by-step solution that walks through how to solve the problem.\n3. Include teaching tips to help parents explain the concepts to their child.\n4. Focus on both the solution AND the learning process.\n\nExplanation Style:\n"

/-- The f-string template of `compile_policy`, assembled section by section
around the six interpolated values. -/
def policy_sections (grade_desc curriculum language_instruction
    abstraction_instruction explanation_instruction mastery_instruction :
    List Char) : List Char :=
  POLICY_INTRO ++ grade_desc ++ POLICY_CURRICULUM_LABEL ++ curriculum ++
    str "\n\n" ++ language_instruction ++ POLICY_CORE_RULES ++
    abstraction_instruction ++ str "\n" ++ explanation_instruction ++ str "\n" ++
    mastery_instruction ++ POLICY_TAIL_SECTION ++ POLICY_CLOSING

/-- `compile_policy(global_state, topic_state, session_hint_stage)`: the
deterministic system-prompt compiler.  `session_hint_stage` is accepted and
unused, as in the source.  The f-string template is assembled section by
section and `.strip()`ed. -/
def compile_policy (global_state : UserGlobalState)
    (topic_state : Option ChildTopicState) (session_hint_stage : ℤ) : List Char :=
  let grade_desc := get_grade_description global_state.grade_alignment
  let curriculum := global_state.curriculum
  let abstraction := match topic_state with
    | some t => t.preferred_abstraction
    | none => AbstractionLevel.BALANCED
  let hint_depth := match topic_state with
    | some t => t.preferred_hint_depth
    | none => HintDepth.MODERATE
  let mastery : ℚ := match topic_state with
    | some t => t.mastery
    | none => 1/2
  let abstraction_instruction := get_abstraction_instruction abstraction
  let explanation_instruction := get_explanation_depth_instruction hint_depth
  let language_instruction := language_instruction_of global_state.language
  let mastery_instruction := mastery_instruction_of mastery
  pyStrip (policy_sections grade_desc curriculum language_instruction
    abstraction_instruction explanation_instruction mastery_instruction)

/-! ## JSON values and a model of `json.loads` -/

/-- JSON documents (numbers carried exactly as rationals). -/
inductive Json where
  | null
  | bool (b : Bool)
  | num (q : ℚ)
  | str (s : List Char)
  | arr (elems : List Json)
  | obj (members : List (List Char × Json))

/-- ASCII decimal digit test. -/
def isDigitChar (c : Char) : Bool := '0' ≤ c && c ≤ '9'

/-- Numeric value of a digit character. -/
def digitVal (c : Char) : Nat := c.toNat - '0'.toNat

/-- Natural number denoted by a digit string. -/
def digitsToNat (ds : List Char) : Nat :=
  ds.foldl (fun n c => n * 10 + digitVal c) 0

/-- Body of a JSON string after the opening quote; handles the single-char
escapes (`\uXXXX` escapes are not modelled — no text in this development
uses them). -/
def parseStringBody : List Char → List Char → Except (List Char) (List Char × List Char)
  | [], _ => .error (str "Unterminated string")
  | '"' :: rest, acc => .ok (acc.reverse, rest)
  | '\\' :: e :: rest, acc =>
    if e = '"' then parseStringBody rest ('"' :: acc)
    else if e = '\\' then parseStringBody rest ('\\' :: acc)
    else if e = '/' then parseStringBody rest ('/' :: acc)
    else if e = 'b' then parseStringBody rest ('\x08' :: acc)
    else if e = 'f' then parseStringBody rest ('\x0c' :: acc)
    else if e = 'n' then parseStringBody rest ('\n' :: acc)
    else if e = 'r' then parseStringBody rest ('\r' :: acc)
    else if e = 't' then parseStringBody rest ('\t' :: acc)
    else .error (str "Invalid escape")
  | ['\\'], _ => .error (str "Unterminated string")
  | c :: rest, acc => parseStringBody rest (c :: acc)

/-- JSON number starting at the head of the input: optional minus, integer
digits, optional fraction, optional exponent. -/
def parseNumber (s : List Char) : Except (List Char) (ℚ × List Char) :=
  let neg := match s with
    | '-' :: _ => true
    | _ => false
  let s1 := if neg then s.drop 1 else s
  let intDigits := s1.takeWhile isDigitChar
  let s2 := s1.dropWhile isDigitChar
  if intDigits.isEmpty then .error (str "Expecting value")
  else
    let withFrac : Except (List Char) (ℚ × List Char) :=
      match s2 with
      | '.' :: s3 =>
        let fracDigits := s3.takeWhile isDigitChar
        let s4 := s3.dropWhile isDigitChar
        if fracDigits.isEmpty then .error (str "Expecting value")
        else
          .ok ((digitsToNat intDigits : ℚ) +
            (digitsToNat fracDigits : ℚ) / ((10 : ℚ) ^ fracDigits.length), s4)
      | _ => .ok ((digitsToNat intDigits : ℚ), s2)
    match withFrac with
    | .error e => .error e
    | .ok (base, s5) =>
      let withExp : Except (List Char) (ℚ × List Char) :=
        match s5 with
        | 'e' :: s6 | 'E' :: s6 =>
          let eneg := match s6 with
            | '-' :: _ => true
            | _ => false
          let s7 := match s6 with
            | '-' :: r => r
            | '+' :: r => r
            | r => r
          let expDigits := s7.takeWhile isDigitChar
          let s8 := s7.dropWhile isDigitChar
          if expDigits.isEmpty then .error (str "Expecting value")
          else if eneg then .ok (base / (10 : ℚ) ^ digitsToNat expDigits, s8)
          else .ok (base * (10 : ℚ) ^ digitsToNat expDigits, s8)
        | _ => .ok (base, s5)
      match withExp with
      | .error e => .error e
      | .ok (q, s9) => .ok ((if neg then -q else q), s9)

mutual

/-- One JSON value starting at the input (after optional whitespace);
`fuel` bounds the recursion depth and is always called with more fuel than
the input length, so the bound is never hit on real input. -/
def parseValue : Nat → List Char → Except (List Char) (Json × List Char)
  | 0, _ => .error (str "Too deeply nested")
  | fuel + 1, s =>
    match s.dropWhile isSpaceChar with
    | 'n' :: 'u' :: 'l' :: 'l' :: rest => .ok (.null, rest)
    | 't' :: 'r' :: 'u' :: 'e' :: rest => .ok (.bool true, rest)
    | 'f' :: 'a' :: 'l' :: 's' :: 'e' :: rest => .ok (.bool false, rest)
    | '"' :: rest =>
      match parseStringBody rest [] with
      | .error e => .error e
      | .ok (cs, r2) => .ok (.str cs, r2)
    | '[' :: rest =>
      match rest.dropWhile isSpaceChar with
      | ']' :: r2 => .ok (.arr [], r2)
      | _ =>
        match parseValue fuel rest with
        | .error e => .error e
        | .ok (x, r2) => parseArrayRest fuel [x] r2
    | '{' :: rest =>
      match rest.dropWhile isSpaceChar with
      | '}' :: r2 => .ok (.obj [], r2)
      | _ =>
        match parseMember fuel rest with
        | .error e => .error e
        | .ok (kv, r2) => parseObjRest fuel [kv] r2
    | c :: rest =>
      if isDigitChar c || c = '-' then
        match parseNumber (c :: rest) with
        | .error e => .error e
        | .ok (q, r2) => .ok (.num q, r2)
      else .error (str "Expecting value")
    | [] => .error (str "Expecting value")

/-- Elements of an array after the first one (accumulated reversed). -/
def parseArrayRest : Nat → List Json → List Char →
    Except (List Char) (Json × List Char)
  | 0, _, _ => .error (str "Too deeply nested")
  | fuel + 1, acc, s =>
    match s.dropWhile isSpaceChar with
    | ',' :: r =>
      match parseValue fuel r with
      | .error e => .error e
      | .ok (x, r2) => parseArrayRest fuel (x :: acc) r2
    | ']' :: r => .ok (.arr acc.reverse, r)
    | _ => .error (str "Expecting comma delimiter")

/-- One `"key": value` member of an object. -/
def parseMember : Nat → List Char →
    Except (List Char) ((List Char × Json) × List Char)
  | 0, _ => .error (str "Too deeply nested")
  | fuel + 1, s =>
    match s.dropWhile isSpaceChar with
    | '"' :: r =>
      match parseStringBody r [] with
      | .error e => .error e
      | .ok (k, r2) =>
        match r2.dropWhile isSpaceChar with
        | ':' :: r3 =>
          match parseValue fuel r3 with
          | .error e => .error e
          | .ok (v, r4) => .ok ((k, v), r4)
        | _ => .error (str "Expecting colon delimiter")
    | _ => .error (str "Expecting property name enclosed in double quotes")

/-- Members of an object after the first one (accumulated reversed). -/
def parseObjRest : Nat → List (List Char × Json) → List Char →
    Except (List Char) (Json × List Char)
  | 0, _, _ => .error (str "Too deeply nested")
  | fuel + 1, acc, s =>
    match s.dropWhile isSpaceChar with
    | ',' :: r =>
      match parseMember fuel r with
      | .error e => .error e
      | .ok (kv, r2) => parseObjRest fuel (kv :: acc) r2
    | '}' :: r => .ok (.obj acc.reverse, r)
    | _ => .error (str "Expecting comma delimiter")

end

/-- Model of `json.loads`: parse one document and demand only trailing
whitespace after it. -/
def json_loads (s : List Char) : Except (List Char) Json :=
  match parseValue (s.length + 1) s with
  | .error e => .error e
  | .ok (v, rest) =>
    if (rest.dropWhile isSpaceChar).isEmpty then .ok v
    else .error (str "Extra data")

/-! ## Response models (`app/services/llm/models.py`) -/

/-- `SolutionStep`. -/
structure SolutionStep where
  step : Int
  title : List Char
  explanation : List Char
deriving DecidableEq, Repr

/-- `TeachingTip`. -/
structure TeachingTip where
  tip : List Char
deriving DecidableEq, Repr

/-- `ParentContext`. -/
structure ParentContext where
  what_it_tests : List (List Char)
  key_idea : List Char
deriving DecidableEq, Repr

/-- `DiagramLabel`. -/
structure DiagramLabel where
  text : List Char
  position : List Char
deriving DecidableEq, Repr

/-- `DiagramViewBox` (padding defaults to 20). -/
structure DiagramViewBox where
  width : Int
  height : Int
  padding : Int
deriving DecidableEq, Repr

/-- `DiagramElement` (geometry primitives; numeric coordinates exact). -/
structure DiagramElement where
  id : List Char
  type : List Char
  highlightSteps : List Int
  points : Option (List (List ℚ))
  center : Option (List ℚ)
  radius : Option ℚ
  startAngle : Option ℚ
  endAngle : Option ℚ
  position : Option (List ℚ)
  vertex : Option (List ℚ)
  rays : Option (List (List ℚ))
  style : Option (List Char)
  label : Option DiagramLabel
  labels : Option (List DiagramLabel)
deriving DecidableEq, Repr

/-- `DiagramSpec`. -/
structure DiagramSpec where
  viewBox : DiagramViewBox
  elements : List DiagramElement
deriving DecidableEq, Repr

/-- `AnalysisResponse`: the structured-analysis contract. -/
structure AnalysisResponse where
  subject : List Char
  topic : List Char
  parent_context : ParentContext
  solution_steps : List SolutionStep
  teaching_tips : List TeachingTip
  common_mistakes : List (List Char)
  diagram : Option DiagramSpec
deriving DecidableEq, Repr

/-! ## Validation (model of pydantic `Model(**data)`)

Extra keys are ignored (pydantic default); missing required fields and
wrong shapes raise `ValidationError`, modelled by `.error`.  Numeric
coercions are modelled for the cases the schema exercises (ints also
accepted where floats are expected; floats with integral value accepted
where ints are expected). -/

/-- Lookup in a parsed JSON object; a duplicated key takes the last
occurrence, as in a Python dict built from parsed pairs. -/
def lookupKey (kvs : List (List Char × Json)) (k : List Char) : Option Json :=
  match kvs.reverse.find? (fun p => p.1 == k) with
  | some p => some p.2
  | none => none

/-- Validate a JSON string value. -/
def asStr : Json → Except (List Char) (List Char)
  | .str s => .ok s
  | _ => .error (str "Input should be a valid string")

/-- Validate a JSON integer value. -/
def asInt : Json → Except (List Char) Int
  | .num q => if q.den = 1 then .ok q.num else .error (str "Input should be a valid integer")
  | _ => .error (str "Input should be a valid integer")

/-- Validate a JSON number value. -/
def asRat : Json → Except (List Char) ℚ
  | .num q => .ok q
  | _ => .error (str "Input should be a valid number")

/-- Validate a JSON list elementwise. -/
def asListOf (f : Json → Except (List Char) α) : Json → Except (List Char) (List α)
  | .arr xs => xs.mapM f
  | _ => .error (str "Input should be a valid list")

/-- A required field of an object. -/
def reqField (kvs : List (List Char × Json)) (k : List Char)
    (f : Json → Except (List Char) α) : Except (List Char) α :=
  match lookupKey kvs k with
  | some v => f v
  | none => .error (str "Field required: " ++ k)

/-- An optional (nullable) field of an object: absent or `null` gives
`none`. -/
def optField (kvs : List (List Char × Json)) (k : List Char)
    (f : Json → Except (List Char) α) : Except (List Char) (Option α) :=
  match lookupKey kvs k with
  | none => .ok none
  | some .null => .ok none
  | some v =>
    match f v with
    | .error e => .error e
    | .ok a => .ok (some a)

/-- A field with a default value. -/
def defField (kvs : List (List Char × Json)) (k : List Char) (d : α)
    (f : Json → Except (List Char) α) : Except (List Char) α :=
  match lookupKey kvs k with
  | none => .ok d
  | some v => f v

/-- `SolutionStep(**·)`. -/
def solutionStepOfJson : Json → Except (List Char) SolutionStep
  | .obj kvs => do
    let step ← reqField kvs (str "step") asInt
    let title ← reqField kvs (str "title") asStr
    let explanation ← reqField kvs (str "explanation") asStr
    pure { step := step, title := title, explanation := explanation }
  | _ => .error (str "Input should be an object")

/-- `TeachingTip(**·)`. -/
def teachingTipOfJson : Json → Except (List Char) TeachingTip
  | .obj kvs => do
    let tip ← reqField kvs (str "tip") asStr
    pure { tip := tip }
  | _ => .error (str "Input should be an object")

/-- `ParentContext(**·)`. -/
def parentContextOfJson : Json → Except (List Char) ParentContext
  | .obj kvs => do
    let what_it_tests ← reqField kvs (str "what_it_tests") (asListOf asStr)
    let key_idea ← reqField kvs (str "key_idea") asStr
    pure { what_it_tests := what_it_tests, key_idea := key_idea }
  | _ => .error (str "Input should be an object")

/-- `DiagramLabel(**·)`. -/
def diagramLabelOfJson : Json → Except (List Char) DiagramLabel
  | .obj kvs => do
    let text ← reqField kvs (str "text") asStr
    let position ← reqField kvs (str "position") asStr
    pure { text := text, position := position }
  | _ => .error (str "Input should be an object")

/-- `DiagramViewBox(**·)`. -/
def diagramViewBoxOfJson : Json → Except (List Char) DiagramViewBox
  | .obj kvs => do
    let width ← reqField kvs (str "width") asInt
    let height ← reqField kvs (str "height") asInt
    let padding ← defField kvs (str "padding") 20 asInt
    pure { width := width, height := height, padding := padding }
  | _ => .error (str "Input should be an object")

/-- `DiagramElement(**·)`. -/
def diagramElementOfJson : Json → Except (List Char) DiagramElement
  | .obj kvs => do
    let id ← reqField kvs (str "id") asStr
    let type ← reqField kvs (str "type") asStr
    let highlightSteps ← defField kvs (str "highlightSteps") [] (asListOf asInt)
    let points ← optField kvs (str "points") (asListOf (asListOf asRat))
    let center ← optField kvs (str "center") (asListOf asRat)
    let radius ← optField kvs (str "radius") asRat
    let startAngle ← optField kvs (str "startAngle") asRat
    let endAngle ← optField kvs (str "endAngle") asRat
    let position ← optField kvs (str "position") (asListOf asRat)
    let vertex ← optField kvs (str "vertex") (asListOf asRat)
    let rays ← optField kvs (str "rays") (asListOf (asListOf asRat))
    let style ← optField kvs (str "style") asStr
    let label ← optField kvs (str "label") diagramLabelOfJson
    let labels ← optField kvs (str "labels") (asListOf diagramLabelOfJson)
    pure { id := id, type := type, highlightSteps := highlightSteps,
           points := points, center := center, radius := radius,
           startAngle := startAngle, endAngle := endAngle,
           position := position, vertex := vertex, rays := rays,
           style := style, label := label, labels := labels }
  | _ => .error (str "Input should be an object")

/-- `DiagramSpec(**·)`. -/
def diagramSpecOfJson : Json → Except (List Char) DiagramSpec
  | .obj kvs => do
    let viewBox ← reqField kvs (str "viewBox") diagramViewBoxOfJson
    let elements ← reqField kvs (str "elements") (asListOf diagramElementOfJson)
    pure { viewBox := viewBox, elements := elements }
  | _ => .error (str "Input should be an object")

/-- `AnalysisResponse(**data)` on an already-parsed JSON object. -/
def analysisResponseOfJson (kvs : List (List Char × Json)) :
    Except (List Char) AnalysisResponse := do
  let subject ← reqField kvs (str "subject") asStr
  let topic ← reqField kvs (str "topic") asStr
  let parent_context ← reqField kvs (str "parent_context") parentContextOfJson
  let solution_steps ← reqField kvs (str "solution_steps") (asListOf solutionStepOfJson)
  let teaching_tips ← reqField kvs (str "teaching_tips") (asListOf teachingTipOfJson)
  let common_mistakes ← reqField kvs (str "common_mistakes") (asListOf asStr)
  let diagram ← optField kvs (str "diagram") diagramSpecOfJson
  pure { subject := subject, topic := topic, parent_context := parent_context,
         solution_steps := solution_steps, teaching_tips := teaching_tips,
         common_mistakes := common_mistakes, diagram := diagram }

/-! ## Orchestrator (`app/services/llm/orchestrator.py`) -/

/-- Failure kinds of one analysis, keeping track of the Python exception
class: `ValueError` from `get_provider` (raised before the try block),
`json.JSONDecodeError` and pydantic `ValidationError` (both caught by the
`except (json.JSONDecodeError, ValueError)` clause), and the `TypeError`
raised by `AnalysisResponse(**data)` when the parsed document is not a
mapping (caught by nothing). -/
inductive OrchErr where
  | unknownModel (msg : List Char)
  | jsonDecode (msg : List Char)
  | validation (msg : List Char)
  | typeError (msg : List Char)
deriving DecidableEq, Repr

/-- `str(e)` of the modelled exception. -/
def errMsg : OrchErr → List Char
  | .unknownModel m => m
  | .jsonDecode m => m
  | .validation m => m
  | .typeError m => m

/-- Which failures the `except (json.JSONDecodeError, ValueError)` clause
of `analyze_homework_image` catches (pydantic `ValidationError` is a
`ValueError` subclass; `TypeError` is not caught). -/
def caughtByRetry : OrchErr → Bool
  | .jsonDecode _ => true
  | .validation _ => true
  | _ => false

/-- `_extract_json` followed by `json.loads(json_str)` and
`AnalysisResponse(**data)`: the shared parse pipeline applied to one raw
response text. -/
def parse_response (content : List Char) : Except OrchErr AnalysisResponse :=
  let json_str := extract_json content
  match json_loads json_str with
  | .error m => .error (.jsonDecode m)
  | .ok (.obj kvs) =>
    match analysisResponseOfJson kvs with
    | .ok a => .ok a
    | .error m => .error (.validation m)
  | .ok _ => .error (.typeError (str "argument after ** must be a mapping"))

/-- One chat message (`{"role": ..., "content": ...}`). -/
structure ChatMessage where
  role : List Char
  content : List Char
deriving DecidableEq, Repr

/-- One upstream provider call with the arguments the orchestrator passes. -/
inductive ProviderCall where
  | analyze_image (image_data : List Nat) (system_prompt user_prompt : List Char)
      (model : List Char) (max_output_tokens : Nat) (temperature : ℚ)
  | chat (system_prompt : List Char) (messages : List ChatMessage)
      (model : List Char) (max_output_tokens : Nat) (temperature : ℚ)
deriving DecidableEq, Repr

/-- The texts the external provider would return for the two capabilities
(the provider is an external collaborator; its responses are the free
input of every orchestrator run). -/
structure ProviderScript where
  analyze_response : List Char
  chat_response : List Char

/-- The `fix_prompt` f-string of `_retry_with_json_fix`: the error message
and a ≤500-character excerpt (`previous_response[:500]`) of the previous
response, embedded in the correction request. -/
def fix_prompt (error previous_response : List Char) : List Char :=
  str "Your previous response was not valid JSON. The error was: " ++ error ++
    str "\n\nPlease fix the JSON and respond with ONLY valid JSON, no markdown code blocks or explanation.\nYour previous response was:\n" ++
    previous_response.take 500 ++
    str "...\n\nRespond with the corrected JSON only."

/-- `_retry_with_json_fix`: build the 3-message repair sequence, call
`continue_chat` once at temperature 0.1, and parse the response; any
failure of this second parse propagates uncaught.  Returns the outcome
together with the upstream call issued. -/
def _retry_with_json_fix (script : ProviderScript)
    (api_model system_prompt user_prompt previous_response error : List Char) :
    Except OrchErr AnalysisResponse × List ProviderCall :=
  let fp := fix_prompt error previous_response
  let messages : List ChatMessage :=
    [{ role := str "user", content := user_prompt },
     { role := str "assistant", content := previous_response },
     { role := str "user", content := fp }]
  let call := ProviderCall.chat system_prompt messages api_model 8000 (1/10)
  let content := script.chat_response
  match parse_response content with
  | .ok a => (.ok a, [call])
  | .error e => (.error e, [call])

/-- `analyze_homework_image`: resolve the model (the Python
`model_id or DEFAULT_MODEL_ID` treats an empty string as absent), call
`analyze_image` at temperature 0.3, parse, and on a caught parse failure
run the single repair round-trip; a `TypeError` (non-mapping document)
propagates immediately.  Returns the outcome together with the ordered
list of upstream provider calls issued. -/
def analyze_homework_image (script : ProviderScript) (image_data : List Nat)
    (system_prompt user_prompt : List Char) (model_id : Option (List Char)) :
    Except OrchErr AnalysisResponse × List ProviderCall :=
  let mid := match model_id with
    | some m => if m.isEmpty then DEFAULT_MODEL_ID else m
    | none => DEFAULT_MODEL_ID
  match get_provider mid with
  | .error e => (.error (.unknownModel e), [])
  | .ok resolved =>
    let api_model := resolved.2
    let content := script.analyze_response
    let call1 := ProviderCall.analyze_image image_data system_prompt user_prompt
      api_model 8000 (3/10)
    match parse_response content with
    | .ok a => (.ok a, [call1])
    | .error e =>
      if caughtByRetry e then
        let retried := _retry_with_json_fix script api_model system_prompt
          user_prompt content (errMsg e)
        (retried.1, call1 :: retried.2)
      else (.error e, [call1])

/-! ## Concrete scenario inputs used by the claims -/

/-- Topic state of the C4 scenario (all defaults). -/
def c4_t0 : ChildTopicState :=
  { child_profile_id := 0
    subject := str "math"
    topic_key := str "math.geometry.area_perimeter"
    mastery := 1/2
    confidence := 1/2
    preferred_abstraction := AbstractionLevel.BALANCED
    preferred_hint_depth := HintDepth.MODERATE }

/-- `too_advanced` feedback event of the C4 scenario. -/
def c4_fb : FeedbackEvent :=
  { child_profile_id := 0
    topic_key := str "math.geometry.area_perimeter"
    event_type := FeedbackEventType.TOO_ADVANCED }

/-- Topic state of the C5 scenario (all defaults). -/
def c5_t0 : ChildTopicState :=
  { child_profile_id := 0
    subject := str "math"
    topic_key := str "math.geometry.area_perimeter"
    mastery := 1/2
    confidence := 1/2
    preferred_abstraction := AbstractionLevel.BALANCED
    preferred_hint_depth := HintDepth.MODERATE }

/-- `still_confused` feedback event of the C5 scenario. -/
def c5_fb : FeedbackEvent :=
  { child_profile_id := 0
    topic_key := str "math.geometry.area_perimeter"
    event_type := FeedbackEventType.STILL_CONFUSED }

/-- Session contents and updated row after the first C5 event. -/
def c5_d1 : List ChildTopicState × ChildTopicState := process_feedback [c5_t0] c5_fb

/-- Session contents and updated row after the second C5 event. -/
def c5_d2 : List ChildTopicState × ChildTopicState := process_feedback c5_d1.1 c5_fb

/-- Session contents and updated row after the third C5 event. -/
def c5_d3 : List ChildTopicState × ChildTopicState := process_feedback c5_d2.1 c5_fb

/-- Global preferences of the C8 scenario. -/
def c8_global : UserGlobalState :=
  { child_profile_id := 0
    grade_alignment := str "year_4"
    curriculum := str "NSW"
    language := str "zh_en"
    default_explanation_style := str "balanced"
    no_direct_answer := true }

/-- Topic state with low mastery (0.2) for the C8 scenario. -/
def c8_low : ChildTopicState :=
  ⟨0, str "math", str "math.fractions.addition", 1/5, 1/2,
    AbstractionLevel.BALANCED, HintDepth.MODERATE⟩

/-- Topic state with high mastery (0.8) for the C8 scenario. -/
def c8_high : ChildTopicState :=
  ⟨0, str "math", str "math.fractions.addition", 4/5, 1/2,
    AbstractionLevel.BALANCED, HintDepth.MODERATE⟩

/-- Topic state with mid-band mastery (0.5) for the C8 scenario. -/
def c8_mid : ChildTopicState :=
  ⟨0, str "math", str "math.fractions.addition", 1/2, 1/2,
    AbstractionLevel.BALANCED, HintDepth.MODERATE⟩

/-- A raw response text that parses as the `AnalysisResponse` schema. -/
def c3_valid_response : List Char :=
  str "\x7b\"subject\": \"math\", \"topic\": \"math.x.y\", \"parent_context\": \x7b\"what_it_tests\": [\"a\"], \"key_idea\": \"k\"\x7d, \"solution_steps\": [\x7b\"step\": 1, \"title\": \"t\", \"explanation\": \"e\"\x7d], \"teaching_tips\": [\x7b\"tip\": \"g\"\x7d], \"common_mistakes\": [\"m\"]\x7d"

/-! ## Helper lemmas -/

theorem clamp_nonneg (x : ℚ) : 0 ≤ clamp x := by
  unfold clamp pymax pymin
  split_ifs <;> linarith

theorem clamp_le_one (x : ℚ) : clamp x ≤ 1 := by
  unfold clamp pymax pymin
  split_ifs <;> linarith

theorem clamp_eq_self (x : ℚ) (h0 : 0 ≤ x) (h1 : x ≤ 1) : clamp x = x := by
  unfold clamp pymax pymin
  split_ifs <;> linarith

theorem process_feedback_singleton (t : ChildTopicState) (fb : FeedbackEvent)
    (h : topicMatch fb.child_profile_id fb.topic_key t = true) :
    process_feedback [t] fb =
      ([apply_event t fb.event_type], apply_event t fb.event_type) := by
  simp only [process_feedback, get_or_create_topic_state,
    List.find?_cons_of_pos _ h, List.map, h, if_pos]

theorem apply_event_boundedState (t : ChildTopicState) (e : FeedbackEventType)
    (h : boundedState t) : boundedState (apply_event t e) := by
  obtain ⟨h1, h2, h3, h4⟩ := h
  cases e with
  | TOO_ADVANCED => exact ⟨clamp_nonneg _, clamp_le_one _, h3, h4⟩
  | TOO_SIMPLE => exact ⟨clamp_nonneg _, clamp_le_one _, h3, h4⟩
  | JUST_RIGHT => exact ⟨h1, h2, clamp_nonneg _, clamp_le_one _⟩
  | UNDERSTOOD => exact ⟨clamp_nonneg _, clamp_le_one _, clamp_nonneg _, clamp_le_one _⟩
  | STILL_CONFUSED => exact ⟨h1, h2, clamp_nonneg _, clamp_le_one _⟩

theorem get_or_create_bounded (db : List ChildTopicState) (pid : Nat)
    (subject topic_key : List Char) (h : boundedDb db) :
    boundedDb (get_or_create_topic_state db pid subject topic_key).1 ∧
    boundedState (get_or_create_topic_state db pid subject topic_key).2 := by
  unfold get_or_create_topic_state
  cases hf : db.find? (topicMatch pid topic_key) with
  | some t =>
    simp only [hf]
    exact ⟨h, h t (List.mem_of_find?_eq_some hf)⟩
  | none =>
    simp only [hf]
    constructor
    · intro x hx
      rcases List.mem_append.1 hx with hx | hx
      · exact h x hx
      · simp only [List.mem_singleton] at hx
        subst hx
        exact ⟨by norm_num, by norm_num, by norm_num, by norm_num⟩
    · exact ⟨by norm_num, by norm_num, by norm_num, by norm_num⟩

theorem process_feedback_boundedDb (db : List ChildTopicState)
    (fb : FeedbackEvent) (h : boundedDb db) :
    boundedDb (process_feedback db fb).1 := by
  obtain ⟨hdb, hrow⟩ := get_or_create_bounded db fb.child_profile_id
    ((splitOnDot fb.topic_key).headD []) fb.topic_key h
  intro x hx
  simp only [process_feedback, List.mem_map] at hx
  rcases hx with ⟨y, hy, rfl⟩
  by_cases hm : topicMatch fb.child_profile_id fb.topic_key y = true
  · simp only [hm, if_pos]
    exact apply_event_boundedState _ _ hrow
  · simp only [Bool.not_eq_true] at hm
    simp only [hm, Bool.false_eq_true, if_neg, not_false_iff]
    exact hdb y hy

theorem process_feedback_list_boundedDb (events : List FeedbackEvent)
    (db : List ChildTopicState) (h : boundedDb db) :
    boundedDb (process_feedback_list db events) := by
  induction events generalizing db with
  | nil => exact h
  | cons e es ih =>
    simp only [process_feedback_list, List.foldl] at *
    exact ih _ (process_feedback_boundedDb _ _ h)

theorem find?_append_none {α : Type} (p : α → Bool) (l₁ l₂ : List α)
    (h : l₁.find? p = none) : (l₁ ++ l₂).find? p = l₂.find? p := by
  induction l₁ with
  | nil => rfl
  | cons a t ih =>
    have hp : p a = false := by
      have := List.find?_eq_none.1 h a (by simp)
      simpa using this
    rw [List.find?_cons_of_neg _ (by simp [hp])] at h
    rw [List.cons_append, List.find?_cons_of_neg _ (by simp [hp])]
    exact ih h

theorem splitOnDot_ne_nil (l : List Char) : splitOnDot l ≠ [] := by
  cases l with
  | nil => simp [splitOnDot]
  | cons c rest =>
    simp only [splitOnDot]
    split_ifs
    · simp
    · cases splitOnDot rest <;> simp

theorem splitOnDot_headD (l : List Char) :
    (splitOnDot l).headD [] = l.takeWhile (fun c => c != '.') := by
  induction l with
  | nil => rfl
  | cons c rest ih =>
    by_cases hc : c = '.'
    · subst hc
      simp [splitOnDot, List.takeWhile]
    · simp only [splitOnDot, if_neg hc]
      have hne := splitOnDot_ne_nil rest
      cases hs : splitOnDot rest with
      | nil => exact absurd hs hne
      | cons p ps =>
        rw [hs] at ih
        simp only [List.headD_cons] at ih ⊢
        rw [List.takeWhile_cons, if_pos (by simp [hc])]
        rw [← ih]

theorem apply_event_subject (t : ChildTopicState) (e : FeedbackEventType) :
    (apply_event t e).subject = t.subject := by
  cases e <;> rfl

theorem dropWhile_append_all {α : Type} (p : α → Bool) (l₁ l₂ : List α)
    (h : ∀ x ∈ l₁, p x = true) : (l₁ ++ l₂).dropWhile p = l₂.dropWhile p := by
  induction l₁ with
  | nil => rfl
  | cons a t ih =>
    rw [List.cons_append, List.dropWhile_cons, if_pos (h a (by simp))]
    exact ih fun x hx => h x (by simp [hx])

theorem dropWhile_cons_false {α : Type} (p : α → Bool) (a : α) (l : List α)
    (h : p a = false) : (a :: l).dropWhile p = a :: l := by
  rw [List.dropWhile_cons, if_neg (by simp [h])]

theorem dropWhile_head_false {α : Type} (p : α → Bool) (l : List α) (c : α)
    (cs : List α) (h : l.dropWhile p = c :: cs) : p c = false := by
  induction l with
  | nil => simp [List.dropWhile] at h
  | cons a t ih =>
    rw [List.dropWhile_cons] at h
    by_cases hp : p a
    · rw [if_pos hp] at h
      exact ih h
    · rw [if_neg hp] at h
      cases h
      simpa using hp

theorem brace_match_of_decomp (pre mid post : List Char)
    (hpre : '{' ∉ pre) (hpost : '}' ∉ post) :
    brace_match (pre ++ ('{' :: (mid ++ ('}' :: post)))) =
      some ('{' :: (mid ++ ['}'])) := by
  have h1 : (pre ++ ('{' :: (mid ++ ('}' :: post)))).dropWhile (fun c => c != '{') =
      '{' :: (mid ++ ('}' :: post)) := by
    rw [dropWhile_append_all _ pre _ (fun x hx => by
      simp only [bne_iff_ne, ne_eq, decide_eq_true_eq]
      exact fun hxe => hpre (hxe ▸ hx))]
    exact dropWhile_cons_false _ _ _ (by simp)
  have h2 : ('{' :: (mid ++ ('}' :: post))).reverse =
      post.reverse ++ ('}' :: (mid.reverse ++ ['{'])) := by
    simp [List.append_assoc]
  have h3 : (post.reverse ++ ('}' :: (mid.reverse ++ ['{']))).dropWhile
      (fun c => c != '}') = '}' :: (mid.reverse ++ ['{']) := by
    rw [dropWhile_append_all _ _ _ (fun x hx => by
      simp only [bne_iff_ne, ne_eq, decide_eq_true_eq]
      exact fun hxe => hpost (hxe ▸ (List.mem_reverse.1 hx)))]
    exact dropWhile_cons_false _ _ _ (by simp)
  simp only [brace_match, h1, h2, h3]
  simp

theorem brace_match_none (content : List Char)
    (hno : ∀ p₁ p₂ p₃ : List Char,
      content ≠ p₁ ++ ('{' :: (p₂ ++ ('}' :: p₃)))) :
    brace_match content = none := by
  simp only [brace_match]
  set R := content.dropWhile (fun c => c != '{') with hR
  set T := R.reverse.takeWhile (fun c => c != '}') with hT
  cases hr : R.reverse.dropWhile (fun c => c != '}') with
  | nil => simp
  | cons y ys =>
    exfalso
    have hy : y = '}' := by
      simpa using dropWhile_head_false _ _ _ _ hr
    subst hy
    have hsplit : R.reverse = T ++ ('}' :: ys) := by
      conv_lhs => rw [← List.takeWhile_append_dropWhile
        (p := fun c => c != '}') (l := R.reverse)]
      rw [hr, ← hT]
    have hrest : R = ys.reverse ++ ('}' :: T.reverse) := by
      have h := congrArg List.reverse hsplit
      rw [List.reverse_reverse] at h
      rw [h]
      simp [List.append_assoc]
    have hcontent : content = content.takeWhile (fun c => c != '{') ++ R := by
      conv_lhs => rw [← List.takeWhile_append_dropWhile
        (p := fun c => c != '{') (l := content)]
    cases hrr : R with
    | nil =>
      rw [hrr] at hrest
      exact absurd hrest.symm (by simp)
    | cons c cs =>
      have hc : c = '{' := by
        rw [hR] at hrr
        simpa using dropWhile_head_false _ _ _ _ hrr
      subst hc
      rw [hrr] at hrest
      cases hys : ys.reverse with
      | nil =>
        rw [hys] at hrest
        simp only [List.nil_append] at hrest
        exact absurd (List.head_eq_of_cons_eq hrest) (by decide)
      | cons z zs =>
        rw [hys, List.cons_append] at hrest
        have hcs := List.tail_eq_of_cons_eq hrest
        have hfinal : content = content.takeWhile (fun c => c != '{') ++
            ('{' :: (zs ++ ('}' :: T.reverse))) := by
          conv_lhs => rw [hcontent, hrr, hcs]
        exact hno (content.takeWhile (fun c => c != '{')) zs T.reverse hfinal

theorem no_brace_decomp (content : List Char) (h : '{' ∉ content) :
    ∀ p₁ p₂ p₃ : List Char, content ≠ p₁ ++ ('{' :: (p₂ ++ ('}' :: p₃))) :=
  fun p₁ p₂ p₃ he => h (he ▸ by simp)

/-! ## Claims -/

/-- C1 counterexample: on `"a \x7bx\x7d b \x7byyyy\x7d c"` (no fenced
block, two brace spans of different lengths) the extraction returns the
single greedy span `"\x7bx\x7d b \x7byyyy\x7d"` from the first `\x7b` to
the last `\x7d`, not the longer individual span `"\x7byyyy\x7d"` that the
claim predicts. -/
theorem C1_counterexample :
    extract_json (str "a \x7bx\x7d b \x7byyyy\x7d c") =
      str "\x7bx\x7d b \x7byyyy\x7d" ∧
    str "\x7bx\x7d b \x7byyyy\x7d" ≠ str "\x7byyyy\x7d" := by
  decide

/-- C1 (amended): JSON extraction follows this precedence: (a) if any
fenced code block exists, the content of the first fenced block (stripped);
(b) otherwise, if some `\x7b` occurs before a later `\x7d`, the single
greedy span from the first `\x7b` through the last `\x7d` (the pattern
search yields exactly this one match, which is thus trivially the longest);
(c) otherwise the raw text trimmed. -/
theorem C1_amended_extraction (content pre mid post : List Char) :
    (∀ b, firstFenced content = some b → extract_json content = pyStrip b) ∧
    (firstFenced content = none →
      content = pre ++ ('{' :: (mid ++ ('}' :: post))) →
      '{' ∉ pre → '}' ∉ post →
      extract_json content = '{' :: (mid ++ ['}'])) ∧
    (firstFenced content = none →
      (∀ p₁ p₂ p₃ : List Char,
        content ≠ p₁ ++ ('{' :: (p₂ ++ ('}' :: p₃)))) →
      extract_json content = pyStrip content) := by
  refine ⟨?_, ?_, ?_⟩
  · intro b hb
    simp only [extract_json, hb]
  · intro hf hdec hpre hpost
    subst hdec
    simp only [extract_json, hf, brace_match_of_decomp pre mid post hpre hpost]
  · intro hf hno
    simp only [extract_json, hf, brace_match_none content hno]

/-- C1 witness: the three precedence branches evaluated at concrete
inputs — a fenced block with prose around it, two unfenced brace spans, and
plain text. -/
theorem C1_amended_extraction_witness :
    extract_json (str "x ```json \x7b\"a\": 1\x7d``` y") = str "\x7b\"a\": 1\x7d" ∧
    extract_json (str "a \x7bx\x7d b \x7byyyy\x7d c") = str "\x7bx\x7d b \x7byyyy\x7d" ∧
    extract_json (str "  plain  ") = str "plain" := by
  refine ⟨?_, ?_, ?_⟩
  · exact ((C1_amended_extraction (str "x ```json \x7b\"a\": 1\x7d``` y") [] [] []).1
      (str "\x7b\"a\": 1\x7d") (by decide)).trans (by decide)
  · exact ((C1_amended_extraction (str "a \x7bx\x7d b \x7byyyy\x7d c") (str "a ")
      (str "x\x7d b \x7byyyy") (str " c")).2.1 (by decide) (by decide) (by decide)
      (by decide)).trans (by decide)
  · exact ((C1_amended_extraction (str "  plain  ") [] [] []).2.2 (by decide)
      (no_brace_decomp _ (by decide))).trans (by decide)

/-- C4: processing a `too_advanced` feedback event on
TopicState{mastery=0.5, confidence=0.5, abstraction=balanced,
hint_depth=moderate} yields hint_depth = step_by_step, abstraction =
more_concrete, mastery = 0.5·0.8 + 0.45·0.2 = 0.49, and confidence
unchanged at 0.5. -/
theorem C4_too_advanced_scenario :
    (process_feedback [c4_t0] c4_fb).2 =
      { child_profile_id := 0
        subject := str "math"
        topic_key := str "math.geometry.area_perimeter"
        mastery := 49/100
        confidence := 1/2
        preferred_abstraction := AbstractionLevel.MORE_CONCRETE
        preferred_hint_depth := HintDepth.STEP_BY_STEP } := by
  rw [process_feedback_singleton c4_t0 c4_fb (by decide)]
  simp only [c4_fb, apply_event]
  rw [ChildTopicState.mk.injEq]
  exact ⟨rfl, rfl, rfl,
    by rw [clamp_eq_self] <;> norm_num [c4_t0, EMA_FACTOR, MASTERY_CHANGE],
    rfl, by decide, by decide⟩

theorem apply_still_confused_flat (pid : Nat) (subj tk : List Char)
    (m c : ℚ) (ab : AbstractionLevel) (hd : HintDepth) (c' : ℚ)
    (hc : clamp (c - CONFIDENCE_CHANGE) = c') (hge : ¬ c' < 3/10) :
    apply_event ⟨pid, subj, tk, m, c, ab, hd⟩ FeedbackEventType.STILL_CONFUSED =
      ⟨pid, subj, tk, m, c', ab, hd⟩ := by
  simp only [apply_event, hc]
  rw [if_neg hge]

theorem apply_still_confused_escalate (pid : Nat) (subj tk : List Char)
    (m c : ℚ) (ab : AbstractionLevel) (hd : HintDepth) (c' : ℚ)
    (hc : clamp (c - CONFIDENCE_CHANGE) = c') (hlt : c' < 3/10) :
    apply_event ⟨pid, subj, tk, m, c, ab, hd⟩ FeedbackEventType.STILL_CONFUSED =
      ⟨pid, subj, tk, m, c', ab, shift_hint_depth hd (str "more")⟩ := by
  simp only [apply_event, hc]
  rw [if_pos hlt]

/-- C5: three consecutive `still_confused` events from confidence=0.5
produce the confidence sequence 0.4, 0.3, 0.2, leave mastery and
abstraction unchanged, and shift hint-depth one rung toward step_by_step
exactly on the events whose post-update confidence is below 0.3 — the
first such event being the third one. -/
theorem C5_still_confused_sequence :
    c5_d1.2.confidence = 2/5 ∧ c5_d2.2.confidence = 3/10 ∧
      c5_d3.2.confidence = 1/5 ∧
    c5_d1.2.mastery = 1/2 ∧ c5_d2.2.mastery = 1/2 ∧ c5_d3.2.mastery = 1/2 ∧
    c5_d1.2.preferred_abstraction = AbstractionLevel.BALANCED ∧
    c5_d2.2.preferred_abstraction = AbstractionLevel.BALANCED ∧
    c5_d3.2.preferred_abstraction = AbstractionLevel.BALANCED ∧
    c5_d1.2.preferred_hint_depth = HintDepth.MODERATE ∧
    c5_d2.2.preferred_hint_depth = HintDepth.MODERATE ∧
    c5_d3.2.preferred_hint_depth = HintDepth.STEP_BY_STEP ∧
    ¬ c5_d1.2.confidence < 3/10 ∧ ¬ c5_d2.2.confidence < 3/10 ∧
      c5_d3.2.confidence < 3/10 := by
  have e1 : c5_d1 = ([⟨0, str "math", str "math.geometry.area_perimeter", 1/2, 2/5,
      AbstractionLevel.BALANCED, HintDepth.MODERATE⟩],
      ⟨0, str "math", str "math.geometry.area_perimeter", 1/2, 2/5,
      AbstractionLevel.BALANCED, HintDepth.MODERATE⟩) := by
    rw [c5_d1, show c5_t0 = ⟨0, str "math", str "math.geometry.area_perimeter",
      1/2, 1/2, AbstractionLevel.BALANCED, HintDepth.MODERATE⟩ from rfl,
      process_feedback_singleton _ c5_fb (by decide),
      show c5_fb.event_type = FeedbackEventType.STILL_CONFUSED from rfl,
      apply_still_confused_flat 0 _ _ (1/2) (1/2) _ _ (2/5)
        (by rw [clamp_eq_self] <;> norm_num [CONFIDENCE_CHANGE])
        (by norm_num)]
  have e2 : c5_d2 = ([⟨0, str "math", str "math.geometry.area_perimeter", 1/2, 3/10,
      AbstractionLevel.BALANCED, HintDepth.MODERATE⟩],
      ⟨0, str "math", str "math.geometry.area_perimeter", 1/2, 3/10,
      AbstractionLevel.BALANCED, HintDepth.MODERATE⟩) := by
    rw [c5_d2, e1, process_feedback_singleton _ c5_fb (by decide),
      show c5_fb.event_type = FeedbackEventType.STILL_CONFUSED from rfl,
      apply_still_confused_flat 0 _ _ (1/2) (2/5) _ _ (3/10)
        (by rw [clamp_eq_self] <;> norm_num [CONFIDENCE_CHANGE])
        (by norm_num)]
  have e3 : c5_d3 = ([⟨0, str "math", str "math.geometry.area_perimeter", 1/2, 1/5,
      AbstractionLevel.BALANCED, HintDepth.STEP_BY_STEP⟩],
      ⟨0, str "math", str "math.geometry.area_perimeter", 1/2, 1/5,
      AbstractionLevel.BALANCED, HintDepth.STEP_BY_STEP⟩) := by
    rw [c5_d3, e2, process_feedback_singleton _ c5_fb (by decide),
      show c5_fb.event_type = FeedbackEventType.STILL_CONFUSED from rfl,
      apply_still_confused_escalate 0 _ _ (1/2) (3/10) _ _ (1/5)
        (by rw [clamp_eq_self] <;> norm_num [CONFIDENCE_CHANGE])
        (by norm_num),
      show shift_hint_depth HintDepth.MODERATE (str "more") = HintDepth.STEP_BY_STEP
        from by decide]
  refine ⟨by rw [e1], by rw [e2], by rw [e3], by rw [e1], by rw [e2], by rw [e3],
    by rw [e1], by rw [e2], by rw [e3], by rw [e1], by rw [e2],
    by rw [e3], by rw [e1]; norm_num, by rw [e2]; norm_num,
    by rw [e3]; norm_num⟩

/-- C6: for every session whose rows have mastery and confidence in [0,1],
one State Reducer transition — and any repeated application — keeps every
row in [0,1]; the abstraction and hint-depth ladders stay within their 3
rungs by construction, and a shift at a boundary rung is a no-op. -/
theorem C6_reducer_invariants (db : List ChildTopicState)
    (events : List FeedbackEvent) (h : boundedDb db) :
    (∀ fb, boundedDb (process_feedback db fb).1) ∧
    boundedDb (process_feedback_list db events) ∧
    shift_abstraction AbstractionLevel.MORE_CONCRETE (str "concrete") =
      AbstractionLevel.MORE_CONCRETE ∧
    shift_abstraction AbstractionLevel.MORE_ABSTRACT (str "abstract") =
      AbstractionLevel.MORE_ABSTRACT ∧
    shift_hint_depth HintDepth.STEP_BY_STEP (str "more") = HintDepth.STEP_BY_STEP ∧
    shift_hint_depth HintDepth.LIGHT_HINTS (str "less") = HintDepth.LIGHT_HINTS :=
  ⟨fun fb => process_feedback_boundedDb db fb h,
   process_feedback_list_boundedDb events db h,
   by decide, by decide, by decide, by decide⟩

/-- C6 witness: the invariant applied to a feedback event on an empty
session, and a boundary no-op. -/
theorem C6_reducer_invariants_witness :
    boundedDb (process_feedback_list []
      [{ child_profile_id := 0, topic_key := str "math.addition.basic",
         event_type := FeedbackEventType.UNDERSTOOD }]) ∧
    shift_hint_depth HintDepth.STEP_BY_STEP (str "more") = HintDepth.STEP_BY_STEP :=
  ⟨(C6_reducer_invariants [] _ (fun t ht => absurd ht (List.not_mem_nil t))).2.1,
   (C6_reducer_invariants [] [] (fun t ht => absurd ht (List.not_mem_nil t))).2.2.2.2.1⟩

/-- C7: `get_or_create` is idempotent — the first call for an absent
(learner, topic_key) pair creates the row with defaults mastery=0.5,
confidence=0.5, balanced, moderate, and a repeated call with identical
arguments returns the same session and the same row unchanged. -/
theorem C7_get_or_create_idempotent (db : List ChildTopicState) (pid : Nat)
    (subject topic_key : List Char)
    (h : db.find? (topicMatch pid topic_key) = none) :
    get_or_create_topic_state db pid subject topic_key =
      (db ++ [{ child_profile_id := pid, subject := subject,
                topic_key := topic_key, mastery := 1/2, confidence := 1/2,
                preferred_abstraction := AbstractionLevel.BALANCED,
                preferred_hint_depth := HintDepth.MODERATE }],
       { child_profile_id := pid, subject := subject, topic_key := topic_key,
         mastery := 1/2, confidence := 1/2,
         preferred_abstraction := AbstractionLevel.BALANCED,
         preferred_hint_depth := HintDepth.MODERATE }) ∧
    get_or_create_topic_state
        (get_or_create_topic_state db pid subject topic_key).1 pid subject
        topic_key =
      get_or_create_topic_state db pid subject topic_key := by
  have h1 : get_or_create_topic_state db pid subject topic_key =
      (db ++ [{ child_profile_id := pid, subject := subject,
                topic_key := topic_key, mastery := 1/2, confidence := 1/2,
                preferred_abstraction := AbstractionLevel.BALANCED,
                preferred_hint_depth := HintDepth.MODERATE }],
       { child_profile_id := pid, subject := subject, topic_key := topic_key,
         mastery := 1/2, confidence := 1/2,
         preferred_abstraction := AbstractionLevel.BALANCED,
         preferred_hint_depth := HintDepth.MODERATE }) := by
    unfold get_or_create_topic_state
    rw [h]
  refine ⟨h1, ?_⟩
  rw [h1]
  unfold get_or_create_topic_state
  rw [find?_append_none _ _ _ h]
  rw [List.find?_cons_of_pos _ (by simp [topicMatch])]

/-- C7 witness: the theorem applied to the empty session. -/
theorem C7_get_or_create_idempotent_witness :
    get_or_create_topic_state
        (get_or_create_topic_state [] 0 (str "math") (str "math.addition")).1 0
        (str "math") (str "math.addition") =
      get_or_create_topic_state [] 0 (str "math") (str "math.addition") :=
  (C7_get_or_create_idempotent [] 0 (str "math") (str "math.addition") rfl).2

/-- C10: when the reducer lazily creates the topic-state row for a feedback
event, the row's subject is the prefix of the event's topic_key before the
first dot, derived from no other input. -/
theorem C10_subject_from_topic_key (db : List ChildTopicState)
    (fb : FeedbackEvent)
    (h : db.find? (topicMatch fb.child_profile_id fb.topic_key) = none) :
    (process_feedback db fb).2.subject =
      fb.topic_key.takeWhile (fun c => c != '.') := by
  simp only [process_feedback]
  rw [apply_event_subject]
  unfold get_or_create_topic_state
  rw [h]
  exact splitOnDot_headD fb.topic_key

/-- C10 witness: subject "math" derived from topic_key
"math.geometry.area_perimeter" on an empty session. -/
theorem C10_subject_from_topic_key_witness :
    (process_feedback []
      { child_profile_id := 0, topic_key := str "math.geometry.area_perimeter",
        event_type := FeedbackEventType.JUST_RIGHT }).2.subject = str "math" :=
  (C10_subject_from_topic_key [] _ rfl).trans (by decide)

theorem startsWithSeq_append_self (pat post : List Char) :
    startsWithSeq pat (pat ++ post) = true := by
  induction pat with
  | nil => rfl
  | cons c cs ih => simp [startsWithSeq, ih]

theorem hasSub_append (pre pat post : List Char) :
    hasSub (pre ++ (pat ++ post)) pat = true := by
  induction pre with
  | nil =>
    rw [List.nil_append]
    cases hp : pat ++ post with
    | nil => rw [hasSub, List.append_eq_nil.1 hp |>.1]; rfl
    | cons c cs =>
      rw [hasSub, ← hp, startsWithSeq_append_self]
      simp
  | cons a t ih =>
    rw [List.cons_append, hasSub]
    simp [ih]

theorem hasSub_of_decomp (l pat pre post : List Char)
    (h : l = pre ++ (pat ++ post)) : hasSub l pat = true :=
  h ▸ hasSub_append pre pat post

theorem length_dropWhile_le {α : Type} (p : α → Bool) (l : List α) :
    (l.dropWhile p).length ≤ l.length := by
  induction l with
  | nil => simp
  | cons a t ih =>
    rw [List.dropWhile_cons]
    split_ifs
    · exact le_trans ih (by simp)
    · simp

theorem dropWhile_append_of_ne {α : Type} (p : α → Bool) (l₁ l₂ : List α)
    (h : l₁.dropWhile p = l₁) (hne : l₁ ≠ []) :
    (l₁ ++ l₂).dropWhile p = l₁ ++ l₂ := by
  cases l₁ with
  | nil => exact absurd rfl hne
  | cons a t =>
    have hp : p a = false := by
      by_cases hp : p a
      · rw [List.dropWhile_cons, if_pos hp] at h
        have hlen := congrArg List.length h
        simp only [List.length_cons] at hlen
        have := length_dropWhile_le p t
        omega
      · simpa using hp
    rw [List.cons_append]
    exact dropWhile_cons_false _ _ _ hp

theorem pyStrip_eq_self (l : List Char) (h1 : l.dropWhile isSpaceChar = l)
    (h2 : l.reverse.dropWhile isSpaceChar = l.reverse) : pyStrip l = l := by
  unfold pyStrip
  rw [h1, h2, List.reverse_reverse]

theorem policy_sections_strip (gd cu li ai ei mi : List Char) :
    pyStrip (policy_sections gd cu li ai ei mi) =
      policy_sections gd cu li ai ei mi := by
  apply pyStrip_eq_self
  · simp only [policy_sections, List.append_assoc]
    exact dropWhile_append_of_ne _ _ _ (by decide) (by decide)
  · simp only [policy_sections]
    rw [List.reverse_append]
    exact dropWhile_append_of_ne _ _ _ (by decide) (by decide)

theorem compile_policy_cases (g : UserGlobalState)
    (t : Option ChildTopicState) (s : ℤ) :
    compile_policy g t s = pyStrip (policy_sections
      (get_grade_description g.grade_alignment) g.curriculum
      (language_instruction_of g.language)
      (get_abstraction_instruction (abstraction_of t))
      (get_explanation_depth_instruction (hint_depth_of t))
      (mastery_instruction_of (mastery_of t))) := by
  cases t <;> rfl

end HWC

namespace HWC

/-- C8: the Policy Compiler is a pure deterministic function of its inputs;
mastery < 0.3 adds the extra-patient framing, mastery > 0.7 adds the
faster-paced framing, mastery in [0.3, 0.7] (boundaries included) adds no
tone adjustment; an absent topic state uses the balanced/moderate/0.5
defaults, so no adjustment is added. -/
theorem C8_policy_compiler (g : UserGlobalState) (t : Option ChildTopicState)
    (stage : ℤ) (pid : Nat) (subj tk : List Char) (conf : ℚ) :
    (∀ g' t' s', g' = g → t' = t → s' = stage →
      compile_policy g' t' s' = compile_policy g t stage) ∧
    (mastery_of t < 3/10 →
      hasSub (compile_policy g t stage) MASTERY_LOW_INSTRUCTION = true) ∧
    (mastery_of t > 7/10 →
      hasSub (compile_policy g t stage) MASTERY_HIGH_INSTRUCTION = true) ∧
    (3/10 ≤ mastery_of t → mastery_of t ≤ 7/10 →
      mastery_instruction_of (mastery_of t) = []) ∧
    (∀ t', t = some t' → 3/10 ≤ t'.mastery → t'.mastery ≤ 7/10 →
      compile_policy g (some { t' with mastery := 1/2 }) stage =
        compile_policy g t stage) ∧
    compile_policy g none stage = compile_policy g
      (some { child_profile_id := pid, subject := subj, topic_key := tk,
              mastery := 1/2, confidence := conf,
              preferred_abstraction := AbstractionLevel.BALANCED,
              preferred_hint_depth := HintDepth.MODERATE }) stage := by
  refine ⟨?_, ?_, ?_, ?_, ?_, ?_⟩
  · intro g' t' s' hg ht hs
    rw [hg, ht, hs]
  · intro hlow
    rw [compile_policy_cases,
      show mastery_instruction_of (mastery_of t) = MASTERY_LOW_INSTRUCTION from by
        simp only [mastery_instruction_of]
        rw [if_pos hlow],
      policy_sections_strip]
    exact hasSub_of_decomp _ _
      (POLICY_INTRO ++ get_grade_description g.grade_alignment ++
        POLICY_CURRICULUM_LABEL ++ g.curriculum ++ str "\n\n" ++
        language_instruction_of g.language ++ POLICY_CORE_RULES ++
        get_abstraction_instruction (abstraction_of t) ++ str "\n" ++
        get_explanation_depth_instruction (hint_depth_of t) ++ str "\n")
      (POLICY_TAIL_SECTION ++ POLICY_CLOSING)
      (by simp [policy_sections, List.append_assoc])
  · intro hhigh
    rw [compile_policy_cases,
      show mastery_instruction_of (mastery_of t) = MASTERY_HIGH_INSTRUCTION from by
        simp only [mastery_instruction_of]
        rw [if_neg (by linarith), if_pos hhigh],
      policy_sections_strip]
    exact hasSub_of_decomp _ _
      (POLICY_INTRO ++ get_grade_description g.grade_alignment ++
        POLICY_CURRICULUM_LABEL ++ g.curriculum ++ str "\n\n" ++
        language_instruction_of g.language ++ POLICY_CORE_RULES ++
        get_abstraction_instruction (abstraction_of t) ++ str "\n" ++
        get_explanation_depth_instruction (hint_depth_of t) ++ str "\n")
      (POLICY_TAIL_SECTION ++ POLICY_CLOSING)
      (by simp [policy_sections, List.append_assoc])
  · intro h1 h2
    simp only [mastery_instruction_of]
    rw [if_neg (not_lt.2 h1), if_neg (not_lt.2 h2)]
  · intro t' ht h1 h2
    subst ht
    rw [compile_policy_cases, compile_policy_cases,
      show mastery_instruction_of (mastery_of (some { t' with mastery := 1/2 })) = [] from by
        simp only [mastery_instruction_of, mastery_of]
        rw [if_neg (by norm_num), if_neg (by norm_num)],
      show mastery_instruction_of (mastery_of (some t')) = [] from by
        simp only [mastery_instruction_of, mastery_of]
        rw [if_neg (not_lt.2 h1), if_neg (not_lt.2 h2)]]
    simp only [abstraction_of, hint_depth_of]
  · rw [compile_policy_cases, compile_policy_cases]
    rfl

/-- C8 witness: the tone rules applied to concrete low/high/mid mastery
states and to an absent topic state. -/
theorem C8_policy_compiler_witness :
    hasSub (compile_policy c8_global (some c8_low) 1) MASTERY_LOW_INSTRUCTION = true ∧
    hasSub (compile_policy c8_global (some c8_high) 1) MASTERY_HIGH_INSTRUCTION = true ∧
    mastery_instruction_of (mastery_of (some c8_mid)) = [] ∧
    compile_policy c8_global none 1 = compile_policy c8_global (some c8_mid) 1 :=
  ⟨(C8_policy_compiler c8_global (some c8_low) 1 0 [] [] 0).2.1
      (by norm_num [mastery_of, c8_low]),
   (C8_policy_compiler c8_global (some c8_high) 1 0 [] [] 0).2.2.1
      (by norm_num [mastery_of, c8_high]),
   (C8_policy_compiler c8_global (some c8_mid) 1 0 [] [] 0).2.2.2.1
      (by norm_num [mastery_of, c8_mid]) (by norm_num [mastery_of, c8_mid]),
   (C8_policy_compiler c8_global none 1 0 (str "math")
      (str "math.fractions.addition") (1/2)).2.2.2.2.2⟩

theorem gp1 : get_provider (str "gpt-5.2") =
    .ok (ProviderKind.openai_responses, str "gpt-5.2") := rfl

theorem gp2 : get_provider (str "gpt-5-mini") =
    .ok (ProviderKind.openai_responses, str "gpt-5-mini") := rfl

theorem gp3 : get_provider (str "gpt-4o") =
    .ok (ProviderKind.openai_chat, str "gpt-4o") := rfl

theorem gp4 : get_provider (str "gpt-4o-mini") =
    .ok (ProviderKind.openai_chat, str "gpt-4o-mini") := rfl

theorem regLookup_none (model_id : List Char)
    (h1 : ¬ str "gpt-5.2" = model_id) (h2 : ¬ str "gpt-5-mini" = model_id)
    (h3 : ¬ str "gpt-4o" = model_id) (h4 : ¬ str "gpt-4o-mini" = model_id) :
    regLookup MODEL_REGISTRY model_id = none := by
  simp only [regLookup, MODEL_REGISTRY]
  rw [if_neg h1, if_neg h2, if_neg h3, if_neg h4]

/-- C9: resolution fails (with the unknown-model `ValueError`) exactly when
the public id is absent from the registry; a present id resolves to its
provider and backend model string; `list_models` returns all 4 registered
entries in registration order. -/
theorem C9_registry_resolution (model_id : List Char) :
    ((∃ e, get_provider model_id = .error e) ↔
      ∀ p ∈ MODEL_REGISTRY, p.1 ≠ model_id) ∧
    (∀ info, regLookup MODEL_REGISTRY model_id = some info →
      ∃ pk, _create_provider info.provider = .ok pk ∧
        get_provider model_id = .ok (pk, info.api_model)) ∧
    list_models = [
      { id := str "gpt-5.2", display_name := str "GPT-5.2 (Premium)",
        tier := str "premium", supports_vision := true,
        description := str "Most capable model. Best reasoning but slowest (~30s). Use for complex or multi-step problems." },
      { id := str "gpt-5-mini", display_name := str "GPT-5 Mini",
        tier := str "standard", supports_vision := true,
        description := str "Good balance of quality and speed (~15-20s). Suitable for most homework questions." },
      { id := str "gpt-4o", display_name := str "GPT-4o",
        tier := str "standard", supports_vision := true,
        description := str "Fast and reliable (~15-25s). Strong vision support. Recommended default." },
      { id := str "gpt-4o-mini", display_name := str "GPT-4o Mini (Budget)",
        tier := str "budget", supports_vision := true,
        description := str "Fastest and cheapest (~5-10s). Good for simple questions. May struggle with complex problems." }] := by
  by_cases h1 : str "gpt-5.2" = model_id
  · subst h1
    refine ⟨⟨?_, ?_⟩, ?_, rfl⟩
    · rintro ⟨e, he⟩
      rw [gp1] at he
      cases he
    · intro hall
      exact absurd rfl (hall _ (List.mem_cons_self _ _))
    · intro info hinfo
      obtain rfl := Option.some.inj
        ((show regLookup MODEL_REGISTRY (str "gpt-5.2") =
          some (MODEL_REGISTRY.get ⟨0, by decide⟩).2 from rfl).symm.trans hinfo)
      exact ⟨ProviderKind.openai_responses, rfl, gp1⟩
  · by_cases h2 : str "gpt-5-mini" = model_id
    · subst h2
      refine ⟨⟨?_, ?_⟩, ?_, rfl⟩
      · rintro ⟨e, he⟩
        rw [gp2] at he
        cases he
      · intro hall
        exact absurd rfl
          (hall _ (List.mem_cons_of_mem _ (List.mem_cons_self _ _)))
      · intro info hinfo
        obtain rfl := Option.some.inj
          ((show regLookup MODEL_REGISTRY (str "gpt-5-mini") =
            some (MODEL_REGISTRY.get ⟨1, by decide⟩).2 from rfl).symm.trans hinfo)
        exact ⟨ProviderKind.openai_responses, rfl, gp2⟩
    · by_cases h3 : str "gpt-4o" = model_id
      · subst h3
        refine ⟨⟨?_, ?_⟩, ?_, rfl⟩
        · rintro ⟨e, he⟩
          rw [gp3] at he
          cases he
        · intro hall
          exact absurd rfl (hall _ (List.mem_cons_of_mem _
            (List.mem_cons_of_mem _ (List.mem_cons_self _ _))))
        · intro info hinfo
          obtain rfl := Option.some.inj
            ((show regLookup MODEL_REGISTRY (str "gpt-4o") =
              some (MODEL_REGISTRY.get ⟨2, by decide⟩).2 from rfl).symm.trans hinfo)
          exact ⟨ProviderKind.openai_chat, rfl, gp3⟩
      · by_cases h4 : str "gpt-4o-mini" = model_id
        · subst h4
          refine ⟨⟨?_, ?_⟩, ?_, rfl⟩
          · rintro ⟨e, he⟩
            rw [gp4] at he
            cases he
          · intro hall
            exact absurd rfl (hall _ (List.mem_cons_of_mem _
              (List.mem_cons_of_mem _ (List.mem_cons_of_mem _
                (List.mem_cons_self _ _)))))
          · intro info hinfo
            obtain rfl := Option.some.inj
              ((show regLookup MODEL_REGISTRY (str "gpt-4o-mini") =
                some (MODEL_REGISTRY.get ⟨3, by decide⟩).2 from rfl).symm.trans hinfo)
            exact ⟨ProviderKind.openai_chat, rfl, gp4⟩
        · have hnone := regLookup_none model_id h1 h2 h3 h4
          have herr : get_provider model_id = .error (str "Unknown model: " ++
              model_id ++ str ". Available models: " ++
              joinCommaKeys (MODEL_REGISTRY.map (fun p => p.1))) := by
            simp only [get_provider, hnone]
          refine ⟨⟨fun _ => ?_, fun _ => ⟨_, herr⟩⟩, ?_, rfl⟩
          · intro p hp
            fin_cases hp
            · exact h1
            · exact h2
            · exact h3
            · exact h4
          · intro info hinfo
            rw [hnone] at hinfo
            exact absurd hinfo (by simp)

/-- C9 witness: an unregistered id fails, a registered one resolves, and
the listing has all 4 entries. -/
theorem C9_registry_resolution_witness :
    (∃ e, get_provider (str "nonexistent-model") = .error e) ∧
    (∃ pk, _create_provider (MODEL_REGISTRY.get ⟨2, by decide⟩).2.provider = .ok pk ∧
      get_provider (str "gpt-4o") =
        .ok (pk, (MODEL_REGISTRY.get ⟨2, by decide⟩).2.api_model)) ∧
    list_models.length = 4 :=
  ⟨(C9_registry_resolution (str "nonexistent-model")).1.mpr (by decide),
   (C9_registry_resolution (str "gpt-4o")).2.1 _ rfl,
   by rw [(C9_registry_resolution (str "gpt-4o")).2.2]; rfl⟩

set_option maxRecDepth 40000 in
/-- C2 counterexample: with a first response `"[1, 2]"` (valid JSON whose
top level is not an object) and an unparsable repair response, both
responses fail to parse as the schema, yet the orchestrator raises the
uncaught mapping `TypeError` after exactly ONE upstream call — no repair
call and no `UnrecoverableMalformedOutput` after 2 calls as the claim
states. -/
theorem C2_counterexample :
    (∃ e, parse_response (str "[1, 2]") = .error e) ∧
    (∃ e, parse_response (str "nope") = .error e) ∧
    analyze_homework_image ⟨str "[1, 2]", str "nope"⟩ [] (str "sys") (str "usr")
        none =
      (.error (.typeError (str "argument after ** must be a mapping")),
       [ProviderCall.analyze_image [] (str "sys") (str "usr") (str "gpt-4o")
          8000 (3/10)]) :=
  ⟨⟨_, rfl⟩, ⟨_, rfl⟩, rfl⟩

/-- C2 (amended): for every analysis in which the first response fails to
parse with one of the caught kinds (malformed JSON or schema validation —
not the non-mapping `TypeError`, which aborts after one call) and the
repair response also fails to parse, the orchestrator fails carrying the
last parse error after exactly 2 upstream calls (one analyze_image, one
chat) and no further retries. -/
theorem C2_amended_bounded_failure (script : ProviderScript) (image_data : List Nat)
    (system_prompt user_prompt : List Char) (e1 e2 : OrchErr)
    (h1 : parse_response script.analyze_response = .error e1)
    (hc : caughtByRetry e1 = true)
    (h2 : parse_response script.chat_response = .error e2) :
    analyze_homework_image script image_data system_prompt user_prompt none =
      (.error e2,
       [ProviderCall.analyze_image image_data system_prompt user_prompt
          (str "gpt-4o") 8000 (3/10),
        ProviderCall.chat system_prompt
          [⟨str "user", user_prompt⟩, ⟨str "assistant", script.analyze_response⟩,
           ⟨str "user", fix_prompt (errMsg e1) script.analyze_response⟩]
          (str "gpt-4o") 8000 (1/10)]) := by
  simp only [analyze_homework_image, _retry_with_json_fix]
  rw [show get_provider DEFAULT_MODEL_ID =
    .ok (ProviderKind.openai_chat, str "gpt-4o") from rfl]
  rw [h1]
  simp only [hc, if_true, h2]



set_option maxRecDepth 40000 in
/-- C2 witness: a malformed first response and malformed repair response
produce exactly 2 upstream calls. -/
theorem C2_amended_bounded_failure_witness :
    (analyze_homework_image ⟨str "oops", str "nope"⟩ [] (str "S") (str "U")
      none).2.length = 2 := by
  rw [C2_amended_bounded_failure ⟨str "oops", str "nope"⟩ [] (str "S") (str "U")
    (OrchErr.jsonDecode (str "Expecting value"))
    (OrchErr.jsonDecode (str "Expecting value")) rfl rfl rfl]
  rfl

set_option maxRecDepth 40000 in
/-- C3 counterexample: with first response `"[1, 2]"` (fails to parse as
the schema) and a repair response that parses successfully, the
orchestrator does NOT return the repaired document: the mapping `TypeError`
propagates after a single call and no repair call is ever issued. -/
theorem C3_counterexample :
    (∃ e, parse_response (str "[1, 2]") = .error e) ∧
    (∃ a, parse_response c3_valid_response = .ok a) ∧
    analyze_homework_image ⟨str "[1, 2]", c3_valid_response⟩ [] (str "sys")
        (str "usr") none =
      (.error (.typeError (str "argument after ** must be a mapping")),
       [ProviderCall.analyze_image [] (str "sys") (str "usr") (str "gpt-4o")
          8000 (3/10)]) :=
  ⟨⟨_, rfl⟩, ⟨_, rfl⟩, rfl⟩

/-- C3 (amended): when the first response fails to parse with a caught
kind (malformed JSON or schema validation) and the repair response parses,
the orchestrator returns the document parsed from the repair response with
no third call; the one repair call goes through chat with the original
user prompt, the full previous response as the assistant turn, and a
correction request containing the error message and a ≤500-character
excerpt, at temperature 0.1 < 0.3. -/
theorem C3_amended_repair_path (script : ProviderScript) (image_data : List Nat)
    (system_prompt user_prompt : List Char) (e1 : OrchErr) (a : AnalysisResponse)
    (h1 : parse_response script.analyze_response = .error e1)
    (hc : caughtByRetry e1 = true)
    (h2 : parse_response script.chat_response = .ok a) :
    analyze_homework_image script image_data system_prompt user_prompt none =
      (.ok a,
       [ProviderCall.analyze_image image_data system_prompt user_prompt
          (str "gpt-4o") 8000 (3/10),
        ProviderCall.chat system_prompt
          [⟨str "user", user_prompt⟩, ⟨str "assistant", script.analyze_response⟩,
           ⟨str "user", fix_prompt (errMsg e1) script.analyze_response⟩]
          (str "gpt-4o") 8000 (1/10)]) ∧
    hasSub (fix_prompt (errMsg e1) script.analyze_response) (errMsg e1) = true ∧
    hasSub (fix_prompt (errMsg e1) script.analyze_response)
      (script.analyze_response.take 500) = true ∧
    (script.analyze_response.take 500).length ≤ 500 ∧
    ((1 : ℚ)/10) < 3/10 := by
  refine ⟨?_, ?_, ?_, ?_, by norm_num⟩
  · simp only [analyze_homework_image, _retry_with_json_fix]
    rw [show get_provider DEFAULT_MODEL_ID =
      .ok (ProviderKind.openai_chat, str "gpt-4o") from rfl]
    rw [h1]
    simp only [hc, if_true, h2]
  · exact hasSub_of_decomp _ _
      (str "Your previous response was not valid JSON. The error was: ")
      (str "\n\nPlease fix the JSON and respond with ONLY valid JSON, no markdown code blocks or explanation.\nYour previous response was:\n" ++
        script.analyze_response.take 500 ++
        str "...\n\nRespond with the corrected JSON only.")
      (by simp [fix_prompt, List.append_assoc])
  · exact hasSub_of_decomp _ _
      (str "Your previous response was not valid JSON. The error was: " ++
        errMsg e1 ++
        str "\n\nPlease fix the JSON and respond with ONLY valid JSON, no markdown code blocks or explanation.\nYour previous response was:\n")
      (str "...\n\nRespond with the corrected JSON only.")
      (by simp [fix_prompt, List.append_assoc])
  · rw [List.length_take]
    exact min_le_left _ _

set_option maxRecDepth 40000 in
/-- C3 witness: a malformed first response and a valid repair response
produce exactly 2 upstream calls. -/
theorem C3_amended_repair_path_witness :
    (analyze_homework_image ⟨str "oops", c3_valid_response⟩ [] (str "S")
      (str "U") none).2.length = 2 := by
  rw [(C3_amended_repair_path ⟨str "oops", c3_valid_response⟩ [] (str "S") (str "U")
    (OrchErr.jsonDecode (str "Expecting value")) _ rfl rfl rfl).1]
  rfl

end HWC
